import Mathlib

/-!
Verification development for the tk-maya engine (`engine.py`).

The Python source is shallowly embedded: host-side objects (Maya callbacks,
menus, engines, pipeline contexts) become opaque values, host API calls whose
results the code branches on become fields of explicit environment records,
and side effects become entries of an explicit effect trace.  Stateful code
(the `SceneEventWatcher` class, the menu registry) is modelled by explicit
state passing.
-/

/-- Maya scene-message event identifiers (`OpenMaya.MSceneMessage.k*`)
used by `engine.py`. -/
inductive MEvent
  | kAfterOpen
  | kAfterSave
  | kAfterNew
  | kMayaExiting
deriving DecidableEq, Repr

/-- Which static method of `SceneEventWatcher` a host callback registration
points at (`__scene_event_callback` or `__maya_exiting_callback`). -/
inductive CBKind
  | sceneEvent
  | mayaExiting
deriving DecidableEq, Repr

/-- Pipeline contexts are opaque values compared for equality. -/
structure Ctx where
  id : Nat
deriving DecidableEq, Repr

/-- Engine objects are opaque host-owned values. -/
structure Engine where
  id : Nat
deriving DecidableEq, Repr

/-- `tank` API instances (`tank.tank_from_path` results) are opaque. -/
structure Tk where
  id : Nat
deriving DecidableEq, Repr

/-- The callback function stored in a `SceneEventWatcher`.  The code only
ever stores lambdas closing over `on_scene_event_callback` arguments, or
arbitrary opaque callables. -/
inductive CbFn
  | onSceneEvent (engineName : String) (prevContext : Ctx) (menuName : String)
  | opaqueFn (n : Nat)
deriving DecidableEq, Repr

/-- The default `scene_events` argument of `SceneEventWatcher.__init__`:
`[OpenMaya.MSceneMessage.kAfterOpen, kAfterSave, kAfterNew]`. -/
def defaultSceneEvents : List MEvent :=
  [MEvent.kAfterOpen, MEvent.kAfterSave, MEvent.kAfterNew]

/-!
## The `SceneEventWatcher` state machine

A single watcher together with the slice of the Maya callback registry it
touches.  `registry` maps callback ids (`MCallbackId`) to the event and the
static callback they were registered with; `messageIds` is the watcher's
`__message_ids` list; `cbCount` counts invocations of the stored `__cb_fn`
(the bodies of the callbacks are host code and are not executed here);
`failing` models which events `MSceneMessage.addCallback` raises for.
-/
structure WHost where
  nextId : Nat
  registry : List (Nat × MEvent × CBKind)
  messageIds : List Nat
  cbCount : Nat
  cbFn : CbFn
  sceneEvents : List MEvent
  runOnce : Bool
  failing : MEvent → Bool

/-- One loop iteration of `start_watching` (lines 69-75):
`try: msg_id = OpenMaya.MSceneMessage.addCallback(ev, __scene_event_callback, self)
except Exception: continue` followed by `self.__message_ids.append(msg_id)`. -/
def addCallbackTry (h : WHost) (ev : MEvent) (kind : CBKind) : WHost :=
  if h.failing ev then h
  else
    { h with
      registry := h.registry ++ [(h.nextId, ev, kind)]
      messageIds := h.messageIds ++ [h.nextId]
      nextId := h.nextId + 1 }

/-- `SceneEventWatcher.stop_watching`: calls `MMessage.removeCallback` on each
stored message id in order, then resets `__message_ids` to `[]`. -/
def stopWatching (h : WHost) : WHost :=
  { h with
    registry := h.messageIds.foldl (fun reg i => reg.filter (fun p => p.1 != i)) h.registry
    messageIds := [] }

/-- `SceneEventWatcher.start_watching`: first `stop_watching`, then register
the scene-event callbacks (failures skipped by the `except ... continue`),
then register the `kMayaExiting` cleanup callback.  The final `addCallback`
is not inside a `try`, so its failure propagates: the returned `Bool` is
`false` when `start_watching` raises (the partial state is kept). -/
def startWatching (h : WHost) : WHost × Bool :=
  let h := stopWatching h
  let h := h.sceneEvents.foldl (fun h ev => addCallbackTry h ev CBKind.sceneEvent) h
  if h.failing MEvent.kMayaExiting then (h, false)
  else
    ({ h with
        registry := h.registry ++ [(h.nextId, MEvent.kMayaExiting, CBKind.mayaExiting)]
        messageIds := h.messageIds ++ [h.nextId]
        nextId := h.nextId + 1 }, true)

/-- `SceneEventWatcher.__scene_event_callback`: if `run_once`, stop watching
first, then invoke `__cb_fn` (recorded by bumping `cbCount`). -/
def sceneEventCb (h : WHost) : WHost :=
  let h := if h.runOnce then stopWatching h else h
  { h with cbCount := h.cbCount + 1 }

/-- `SceneEventWatcher.__maya_exiting_callback`: just stop watching. -/
def mayaExitingCb (h : WHost) : WHost :=
  stopWatching h

/-- `SceneEventWatcher.__init__`: store the callback, events and `run_once`
flag, start with an empty `__message_ids` list, and call `start_watching`. -/
def mkWatcher (cb : CbFn) (events : List MEvent) (runOnce : Bool)
    (failing : MEvent → Bool) : WHost × Bool :=
  startWatching
    { nextId := 0, registry := [], messageIds := [], cbCount := 0,
      cbFn := cb, sceneEvents := events, runOnce := runOnce, failing := failing }

/-- Maya dispatching one scene message: the registrations for the event are
snapshotted, and each is invoked if it is still registered when its turn
comes (`MSceneMessage` callbacks can be removed from inside a callback, in
which case they are not invoked afterwards). -/
def dispatchEvent (h : WHost) (ev : MEvent) : WHost :=
  (h.registry.filter (fun p => p.2.1 == ev)).foldl
    (fun h p =>
      if h.registry.any (fun q => q.1 == p.1) then
        match p.2.2 with
        | CBKind.sceneEvent => sceneEventCb h
        | CBKind.mayaExiting => mayaExitingCb h
      else h)
    h

/-- A whole sequence of host scene messages. -/
def dispatchEvents (h : WHost) (l : List MEvent) : WHost :=
  l.foldl dispatchEvent h

/-- The ids currently present in the host callback registry. -/
def regIds (h : WHost) : List Nat :=
  h.registry.map (fun p => p.1)

/-- Core watcher invariant: every registry entry's id is stored in
`__message_ids` (so `stop_watching` removes every registration). -/
def RegSub (h : WHost) : Prop :=
  ∀ p ∈ h.registry, p.1 ∈ h.messageIds

/-!
## Errors, effects, and the UI state

`PyErr` covers the exception values the embedded code can raise or branch
on.  `tank.TankEngineInitError` is a subclass of `tank.TankError`, which
matters for the two `except` clauses in `refresh_engine`.
-/
inductive PyErr
  | tankError (msg : String)
  | tankEngineInitError (msg : String)
  | otherError (ty msg : String)
deriving DecidableEq, Repr

/-- Whether `except tank.TankError` catches this exception. -/
def PyErr.isTankError : PyErr → Bool
  | .tankError _ => true
  | .tankEngineInitError _ => true
  | .otherError _ _ => false

/-- Whether `except tank.TankEngineInitError` catches this exception. -/
def PyErr.isTankEngineInitError : PyErr → Bool
  | .tankEngineInitError _ => true
  | _ => false

/-- The `%s` rendering of the exception value. -/
def PyErr.text : PyErr → String
  | .tankError m => m
  | .tankEngineInitError m => m
  | .otherError _ m => m

/-- The `%s` rendering of the exception type. -/
def PyErr.typeName : PyErr → String
  | .tankError _ => "tank.TankError"
  | .tankEngineInitError _ => "tank.TankEngineInitError"
  | .otherError t _ => t

/-- Maya display functions selectable by the logging code. -/
inductive DispFn
  | info
  | warning
  | error
deriving DecidableEq, Repr

/-- Observable side effects of the embedded code.  `engineLog*` record calls
of the engine's logging methods (whose own display behaviour is modelled
separately by `logDebug`, `logInfo`, etc. below); `asyncMainThread` records
`self.async_execute_in_main_thread(fct, msg)`. -/
inductive Effect
  | displayInfo (msg : String)
  | displayWarning (msg : String)
  | displayError (msg : String)
  | asyncMainThread (fn : DispFn) (msg : String)
  | deleteUI (name : String)
  | newMenu (name label : String)
  | newMenuItem (menu label : String)
  | postMenuCommand (menu : String)
  | confirmDialog (title : String)
  | engineLogDebug (msg : String)
  | engineLogInfo (msg : String)
  | engineLogWarning (msg : String)
  | engineLogError (msg : String)
  | destroyEngineCall (e : Engine)
  | startEngineCall (name : String)
  | setEnvVar (name : String)
  | addSysPath (p : String)
  | logMetric (name value : String)
  | setProject (p : String)
  | stopWatcherCall
  | runCommand (app cmd : String)
deriving DecidableEq, Repr

/-- Maya UI state as far as the menu functions observe it: the batch-mode
flag (`cmds.about(batch=True)`) and the names of existing menus. -/
structure UI where
  batch : Bool
  menus : List String
deriving DecidableEq, Repr

/-- `remove_sgtk_disabled_menu`: returns whether the disabled menu existed
and was deleted; in batch mode it returns `False` immediately. -/
def removeSgtkDisabledMenu (ui : UI) : Bool × UI × List Effect :=
  if ui.batch then (false, ui, [])
  else if "ShotgunMenuDisabled" ∈ ui.menus then
    (true, { ui with menus := ui.menus.erase "ShotgunMenuDisabled" },
     [Effect.deleteUI "ShotgunMenuDisabled"])
  else (false, ui, [])

/-- `create_sgtk_disabled_menu`: no-op in batch mode; otherwise deletes any
existing "ShotgunMenu", then builds the disabled menu with its single item. -/
def createSgtkDisabledMenu (menuName : String) (ui : UI) : UI × List Effect :=
  if ui.batch then (ui, [])
  else
    let (ui, effs) :=
      if "ShotgunMenu" ∈ ui.menus then
        ({ ui with menus := ui.menus.erase "ShotgunMenu" }, [Effect.deleteUI "ShotgunMenu"])
      else (ui, [])
    ({ ui with menus := ui.menus ++ ["ShotgunMenuDisabled"] },
     effs ++ [Effect.newMenu "ShotgunMenuDisabled" menuName,
              Effect.newMenuItem "ShotgunMenuDisabled" "Sgtk is disabled."])

/-- `sgtk_disabled_message`: shows the explanatory confirm dialog. -/
def sgtkDisabledMessage : List Effect :=
  [Effect.confirmDialog "Sgtk is disabled"]

/-!
## `refresh_engine`

The host API call results that `refresh_engine` branches on are supplied by
an environment record: the current engine, the scene name, and the outcomes
of `tank.tank_from_path`, `tk.context_from_path` and
`tank.platform.start_engine` for the scene being handled.
-/
structure REnv where
  currentEngine : Option Engine
  sceneName : String
  tankFromPath : Except PyErr Tk
  contextFromPath : Except PyErr Ctx
  startEngine : Except PyErr Engine
deriving Repr

/-- `"%s" % ctx` rendering of a context. -/
def Ctx.text (c : Ctx) : String :=
  "<Context " ++ toString c.id ++ ">"

/-- Lines 141-164 of `refresh_engine`, reached with a (necessarily non-None:
line 116 `current_engine.sgtk` would have raised otherwise) current engine
`ce` and the context `ctx` determined for the scene: return `ce` unchanged
when the context is unchanged and the menu was not disabled, otherwise tear
down `ce` and try to start a new engine. -/
def refreshRestart (env : REnv) (engineName : String) (prevContext ctx : Ctx)
    (menuName : String) (ce : Engine) (menuWasDisabled : Bool) (ui : UI)
    (effs : List Effect) : Except PyErr (Option Engine) × UI × List Effect :=
  if ctx = prevContext ∧ menuWasDisabled = false then
    (Except.ok (some ce), ui, effs)
  else
    let effs := effs ++
      [Effect.engineLogDebug "Ready to switch to context because of scene event !",
       Effect.engineLogDebug ("Prev context: " ++ prevContext.text),
       Effect.engineLogDebug ("New context: " ++ ctx.text),
       Effect.destroyEngineCall ce]
    match env.startEngine with
    | Except.ok ne =>
        (Except.ok (some ne), ui,
         effs ++ [Effect.startEngineCall engineName,
                  Effect.engineLogDebug "Launched new engine for context!"])
    | Except.error e =>
        if e.isTankEngineInitError then
          let (ui, effs2) := createSgtkDisabledMenu menuName ui
          (Except.ok none, ui,
           effs ++ [Effect.startEngineCall engineName,
                    Effect.displayInfo ("Shotgun: Engine cannot be started: " ++ e.text)]
                ++ effs2)
        else (Except.error e, ui, effs ++ [Effect.startEngineCall engineName])

/-- `refresh_engine(engine_name, prev_context, menu_name)`.  Returns the
outcome (`Except.error` when an exception propagates), the updated UI state
and the effect trace. -/
def refreshEngine (env : REnv) (engineName : String) (prevContext : Ctx)
    (menuName : String) (ui : UI) : Except PyErr (Option Engine) × UI × List Effect :=
  let (menuWasDisabled, ui, effs) := removeSgtkDisabledMenu ui
  match env.currentEngine with
  | none =>
      -- line 116: `tk = current_engine.sgtk` with `current_engine is None`
      (Except.error (PyErr.otherError "exceptions.AttributeError"
        "\x27NoneType\x27 object has no attribute \x27sgtk\x27"), ui, effs)
  | some ce =>
      if env.sceneName = "" then
        if menuWasDisabled = false then
          (Except.ok (some ce), ui, effs)
        else
          -- file->new with a disabled menu: fall through with ctx = prev_context
          refreshRestart env engineName prevContext prevContext menuName ce
            menuWasDisabled ui effs
      else
        match env.tankFromPath with
        | Except.error e =>
            if e.isTankError then
              let effs := effs ++
                [Effect.displayInfo ("Shotgun: Engine cannot be started: " ++ e.text)]
              let (ui, effs2) := createSgtkDisabledMenu menuName ui
              (Except.ok (some ce), ui, effs ++ effs2)
            else (Except.error e, ui, effs)
        | Except.ok _tk =>
            match env.contextFromPath with
            | Except.error e => (Except.error e, ui, effs)
            | Except.ok ctx =>
                refreshRestart env engineName prevContext ctx menuName ce
                  menuWasDisabled ui effs

/-!
## `on_scene_event_callback`
-/

/-- The traceback strings are host runtime data with no counterpart in the
embedding; modelled as empty. -/
def tracebackLines (_e : PyErr) : List String := []

/-- The error message built in the `except` clause of
`on_scene_event_callback`. -/
def callbackErrorMessage (e : PyErr) : String :=
  "Message: Shotgun encountered a problem starting the Engine.\n" ++
  "Please contact support@shotgunsoftware.com\n\n" ++
  "Exception: " ++ e.typeName ++ " - " ++ e.text ++ "\n" ++
  "Traceback (most recent call last):\n" ++
  String.intercalate "\n" (tracebackLines e)

/-- What `SceneEventWatcher(cb_fn, ...)` is asked to construct. -/
structure WatcherSpec where
  cbFn : CbFn
  events : List MEvent
  runOnce : Bool
deriving DecidableEq, Repr

/-- `on_scene_event_callback(engine_name, prev_context, menu_name)`: calls
`refresh_engine`, catches any exception (displaying the formatted error),
and when no engine resulted, constructs a run-once `SceneEventWatcher`
whose callback re-invokes `on_scene_event_callback` with the same
arguments.  Returns the resulting engine, the watcher constructed (if any),
the UI state, and the effect trace; the function itself never raises. -/
def onSceneEventCallback (env : REnv) (engineName : String) (prevContext : Ctx)
    (menuName : String) (ui : UI) :
    Option Engine × Option WatcherSpec × UI × List Effect :=
  let (res, ui, effs) := refreshEngine env engineName prevContext menuName ui
  let (newEngine, effs) :=
    match res with
    | Except.ok ne => (ne, effs)
    | Except.error e => (none, effs ++ [Effect.displayError (callbackErrorMessage e)])
  match newEngine with
  | none =>
      (none,
       some { cbFn := CbFn.onSceneEvent engineName prevContext menuName,
              events := defaultSceneEvents, runOnce := true },
       ui, effs)
  | some ne => (some ne, none, ui, effs)

/-!
## `MayaEngine`: UI detection and logging
-/

/-- `MayaEngine.has_ui`: Maya in batch mode has no UI. -/
def hasUI (batch : Bool) : Bool :=
  if batch then false else true

/-- Python `logging.INFO`. -/
def loggingINFO : Nat := 20
/-- Python `logging.WARNING`. -/
def loggingWARNING : Nat := 30
/-- Python `logging.ERROR`. -/
def loggingERROR : Nat := 40

/-- A Python `logging.LogRecord` as `_emit_log_message_FUTURE` reads it. -/
structure LogRecord where
  levelno : Nat
  basename : String
  message : String
deriving DecidableEq, Repr

/-- `MayaEngine._emit_log_message_FUTURE`: formats the record and forwards
the selected Maya display function through `async_execute_in_main_thread`. -/
def emitLogMessageFUTURE (record : LogRecord) : List Effect :=
  let msg := "Shotgun " ++ (if record.levelno < loggingINFO then "DEBUG " else "")
      ++ record.basename ++ ": " ++ record.message
  let fct : DispFn :=
    if record.levelno < loggingWARNING then DispFn.info
    else if record.levelno < loggingERROR then DispFn.warning
    else DispFn.error
  [Effect.asyncMainThread fct msg]

/-- `MayaEngine.log_debug`: skipped when the `debug_logging` setting is off;
otherwise formats the message with the time since the last debug message and
forwards `OpenMaya.MGlobal.displayInfo` through
`async_execute_in_main_thread`, returning the updated time stamp.  Time
stamps are abstract ticks (the source formats a float seconds delta with
`%0.3f`). -/
def logDebug (debugLogging : Bool) (lastStamp now : Nat) (msg : String) :
    Nat × List Effect :=
  if debugLogging = false then (lastStamp, [])
  else
    (now,
     [Effect.asyncMainThread DispFn.info
       ("Shotgun DEBUG (" ++ toString (now - lastStamp) ++ "s): " ++ msg)])

/-- `MayaEngine.log_info`. -/
def logInfo (msg : String) : List Effect :=
  [Effect.asyncMainThread DispFn.info ("Shotgun: " ++ msg)]

/-- `MayaEngine.log_warning`. -/
def logWarning (msg : String) : List Effect :=
  [Effect.asyncMainThread DispFn.warning ("Shotgun: " ++ msg)]

/-- `MayaEngine.log_error`. -/
def logError (msg : String) : List Effect :=
  [Effect.asyncMainThread DispFn.error ("Shotgun: " ++ msg)]

/-!
## `MayaEngine.init_engine`

The engine settings are modelled with the call-site defaults of
`get_setting` already resolved, and the host facts `init_engine` reads
(`cmds.about` results, environment variables, PySide availability, the
template-derived project path) live in `InitEnv`.
-/
structure RunAtStartup where
  appInstance : String
  name : String
deriving DecidableEq, Repr

structure EngSettings where
  useSgtkAsMenuName : Bool
  automaticContextSwitch : Bool
  compatibilityDialogMinVersion : Nat
  debugLogging : Bool
  templateProject : Option String
  runAtStartup : List RunAtStartup
deriving DecidableEq, Repr

structure InitEnv where
  operatingSystem : String
  version : String
  batch : Bool
  compatShownInEnv : Bool
  settings : EngSettings
  instanceName : String
  context : Ctx
  metricOk : Bool
  projPath : Except PyErr String
  diskLocation : String
  pyside2Present : Bool
  pysidePresent : Bool
  platform : String
  pysideImportOk : Bool
deriving Repr

/-- Python `str.startswith`, modelled over the character lists of the two
strings (computable by the kernel, unlike `String.startsWith`). -/
def strStartsWith (s p : String) : Bool :=
  p.data.isPrefixOf s.data

/-- Strip the leading `"Maya "` from `cmds.about(version=True)`. -/
def mayaVersionOf (v : String) : String :=
  if strStartsWith v "Maya " then v.drop 5 else v

/-- The warning text for untested Maya versions. -/
def compatWarningMsg (mayaVer : String) : String :=
  "The Shotgun Pipeline Toolkit has not yet been fully tested with Maya "
    ++ mayaVer ++ ".  " ++
  "You can continue to use Toolkit but you may experience bugs or instability."
    ++ "\n\nPlease report any issues to: support@shotgunsoftware.com"

/-- The untested-version branch of `init_engine` (lines 298-324): decide
whether to show the compatibility dialog, mark the environment variable,
and always log the warning. -/
def compatWarningEffects (env : InitEnv) (mayaVer : String) : List Effect :=
  let msg := compatWarningMsg mayaVer
  let show0 := hasUI env.batch = true ∧ env.compatShownInEnv = false
  if show0 then
    let major := (((mayaVer.splitOn " ").headD "").splitOn ".").headD ""
    let strikeDown := major ≠ "" ∧ major.all Char.isDigit
      ∧ major.toNat?.getD 0 < env.settings.compatibilityDialogMinVersion
    [Effect.setEnvVar "SGTK_COMPATIBILITY_DIALOG_SHOWN"] ++
    (if strikeDown then [] else
      [Effect.confirmDialog
        "Warning - Shotgun Pipeline Toolkit Compatibility!                          "]) ++
    [Effect.engineLogWarning msg]
  else
    [Effect.engineLogWarning msg]

/-- `MayaEngine._set_project` (lines 651-663): nothing when the
`template_project` setting is absent; otherwise the template machinery
produces a project path (or raises), which is logged and applied. -/
def setProjectEffects (env : InitEnv) : Except PyErr (List Effect) :=
  match env.settings.templateProject with
  | none => Except.ok []
  | some _ =>
      match env.projPath with
      | Except.error e => Except.error e
      | Except.ok p =>
          Except.ok [Effect.engineLogInfo ("Setting Maya project to \x27" ++ p ++ "\x27"),
                     Effect.setProject p]

/-- `MayaEngine._init_pyside` (lines 435-490): try PySide2, then PySide,
then add the bundled PySide for the current platform and try the import. -/
def initPysideEffects (env : InitEnv) : List Effect :=
  if env.pyside2Present then
    [Effect.engineLogDebug "PySide2 detected - the existing version will be used."]
  else
    [Effect.engineLogDebug "PySide2 not detected - trying for PySide now..."] ++
    if env.pysidePresent then
      [Effect.engineLogDebug "PySide detected - the existing version will be used."]
    else
      [Effect.engineLogDebug "PySide not detected - it will be added to the setup now..."] ++
      (if env.platform = "darwin" then
        let p := env.diskLocation ++ "/resources/pyside112_py26_qt471_mac/python"
        [Effect.engineLogDebug ("Adding pyside to sys.path: " ++ p), Effect.addSysPath p]
      else if env.platform = "win32" then
        let p := env.diskLocation ++ "/resources/pyside111_py26_qt471_win64/python"
        [Effect.engineLogDebug ("Adding pyside to sys.path: " ++ p), Effect.addSysPath p,
         Effect.setEnvVar "PATH"]
      else if env.platform = "linux2" then
        let p := env.diskLocation ++ "/resources/pyside112_py26_qt471_linux/python"
        [Effect.engineLogDebug ("Adding pyside to sys.path: " ++ p), Effect.addSysPath p]
      else
        [Effect.engineLogError "Unknown platform - cannot initialize PySide!"]) ++
      (if env.pysideImportOk then [] else
        [Effect.engineLogError
          "PySide could not be imported! Apps using pyside will not operate correctly!"])

/-- Lines 326-350 of `init_engine`: metrics, `_set_project`, `_init_pyside`,
menu-name selection and the scene-event watcher registration. -/
def initEngineTail (env : InitEnv) (mayaVer : String) (effs : List Effect) :
    Except PyErr (String × Option WatcherSpec) × List Effect :=
  let effs := effs ++ (if env.metricOk then [Effect.logMetric "Maya version" mayaVer] else [])
  match setProjectEffects env with
  | Except.error e => (Except.error e, effs)
  | Except.ok projEffs =>
      let effs := effs ++ projEffs ++ initPysideEffects env
      let menuName := if env.settings.useSgtkAsMenuName then "Sgtk" else "Shotgun"
      if env.settings.automaticContextSwitch then
        (Except.ok (menuName,
           some { cbFn := CbFn.onSceneEvent env.instanceName env.context menuName,
                  events := defaultSceneEvents, runOnce := false }),
         effs ++ [Effect.engineLogDebug "Registered open and save callbacks."])
      else
        (Except.ok (menuName, none), effs)

/-- `MayaEngine.init_engine`: platform check, Maya version check with the
compatibility warning, metrics, project setup, PySide setup, menu-name
selection, and — when `automatic_context_switch` is on — construction of the
`SceneEventWatcher` routing scene events to `on_scene_event_callback`.
Returns the chosen menu name and the watcher constructed (if any). -/
def initEngine (env : InitEnv) : Except PyErr (String × Option WatcherSpec) × List Effect :=
  let effs := [Effect.engineLogDebug "MayaEngine: Initializing..."]
  if env.operatingSystem ∉ ["mac", "win64", "linux64"] then
    (Except.error (PyErr.tankError
       ("The current platform is not supported! Supported platforms "
        ++ "are Mac, Linux 64 and Windows 64.")), effs)
  else
    let mayaVer := mayaVersionOf env.version
    if ["2014", "2015", "2016"].any (fun p => strStartsWith mayaVer p) then
      initEngineTail env mayaVer
        (effs ++ [Effect.engineLogDebug ("Running Maya version " ++ mayaVer)])
    else if ["2012", "2013"].any (fun p => strStartsWith mayaVer p) then
      (Except.error (PyErr.tankError
         "Shotgun integration is not compatible with Maya versions older than 2014."),
       effs)
    else
      initEngineTail env mayaVer (effs ++ compatWarningEffects env mayaVer)

/-!
## `MayaEngine.post_app_init` and `_run_app_instance_commands`
-/

/-- What `post_app_init` and `_run_app_instance_commands` read from the
engine: batch flag, menu name, engine name, the registered commands (name
and the app instance that registered them, if any), and the
`run_at_startup` setting. -/
structure PAIEnv where
  batch : Bool
  menuName : String
  engineName : String
  commands : List (String × Option String)
  runAtStartup : List RunAtStartup
deriving DecidableEq, Repr

/-- Command names registered by a given app instance
(`app_instance_commands.get(app_instance_name)` is `None` exactly when this
list is empty). -/
def commandsOfApp (cmds : List (String × Option String)) (app : String) : List String :=
  (cmds.filter (fun c => c.2 == some app)).map (fun c => c.1)

/-- One iteration of the `run_at_startup` loop of
`_run_app_instance_commands` (lines 386-418). -/
def runStartupEntry (env : PAIEnv) (s : RunAtStartup) : List Effect :=
  let cmdNames := commandsOfApp env.commands s.appInstance
  if cmdNames = [] then
    [Effect.engineLogWarning
      (env.engineName ++ " configuration setting \x27run_at_startup\x27 requests app \x27"
        ++ s.appInstance ++ "\x27 that is not installed.")]
  else if s.name = "" then
    (cmdNames.map (fun c =>
      [Effect.engineLogDebug
        (env.engineName ++ " startup running app \x27" ++ s.appInstance
          ++ "\x27 command \x27" ++ c ++ "\x27."),
       Effect.runCommand s.appInstance c])).flatten
  else if s.name ∈ cmdNames then
    [Effect.engineLogDebug
      (env.engineName ++ " startup running app \x27" ++ s.appInstance
        ++ "\x27 command \x27" ++ s.name ++ "\x27."),
     Effect.runCommand s.appInstance s.name]
  else
    [Effect.engineLogWarning
      (env.engineName ++ " configuration setting \x27run_at_startup\x27 requests app \x27"
        ++ s.appInstance ++ "\x27 unknown command \x27" ++ s.name ++ "\x27. Known commands: "
        ++ String.intercalate ", " (cmdNames.map (fun n => "\x27" ++ n ++ "\x27")))]

/-- `MayaEngine._run_app_instance_commands`. -/
def runAppInstanceCommands (env : PAIEnv) : List Effect :=
  (env.runAtStartup.map (runStartupEntry env)).flatten

/-- `MayaEngine.post_app_init`: build the Shotgun menu (only with a UI),
then run the startup commands. -/
def postAppInit (env : PAIEnv) : List Effect :=
  (if hasUI env.batch then
    [Effect.newMenu "ShotgunMenu" env.menuName, Effect.postMenuCommand "ShotgunMenu"]
  else []) ++ runAppInstanceCommands env

/-!
## `MayaEngine.destroy_engine`
-/
structure DestroyEnv where
  batch : Bool
  automaticContextSwitch : Bool
  menuExists : Bool
deriving DecidableEq, Repr

/-- `MayaEngine.destroy_engine`: log, stop the watcher when
`automatic_context_switch` is on, and delete the menu when a UI exists and
the menu handle still does. -/
def destroyEngine (env : DestroyEnv) : List Effect :=
  [Effect.engineLogDebug "MayaEngine: Destroying..."] ++
  (if env.automaticContextSwitch then [Effect.stopWatcherCall] else []) ++
  (if hasUI env.batch = true ∧ env.menuExists = true then
    [Effect.deleteUI "ShotgunMenu"]
  else [])

/-!
## Derived definitions used by the statements
-/

/-- The registry entries a run of the scene-event loop of `start_watching`
adds, starting from callback id `n`. -/
def builtEntries (f : MEvent → Bool) : Nat → List MEvent → List (Nat × MEvent × CBKind)
  | _, [] => []
  | n, ev :: l =>
      if f ev then builtEntries f n l
      else (n, ev, CBKind.sceneEvent) :: builtEntries f (n + 1) l

/-- The whole registry contents produced by `start_watching` from a clean
slate: the scene-event entries followed by the `kMayaExiting` cleanup entry
(absent exactly when its `addCallback` raises). -/
def startedRegistry (f : MEvent → Bool) (n : Nat) (events : List MEvent) :
    List (Nat × MEvent × CBKind) :=
  builtEntries f n events ++
    (if f MEvent.kMayaExiting then []
     else [(n + (builtEntries f n events).length, MEvent.kMayaExiting, CBKind.mayaExiting)])

/-- The registrations `start_watching` leaves behind, with the opaque ids
stripped: the data the handles denote. -/
def startedSnd (f : MEvent → Bool) (events : List MEvent) : List (MEvent × CBKind) :=
  (events.filter (fun ev => !f ev)).map (fun ev => (ev, CBKind.sceneEvent)) ++
    (if f MEvent.kMayaExiting then [] else [(MEvent.kMayaExiting, CBKind.mayaExiting)])

/-- The watcher's registration state up to the identity of the opaque
callback handles: which registrations exist (in order), how many handles are
stored, and which registration each stored handle denotes. -/
def regState (h : WHost) : List (MEvent × CBKind) × Nat × List (Option (MEvent × CBKind)) :=
  (h.registry.map (fun p => p.2),
   h.messageIds.length,
   h.messageIds.map (fun i => (h.registry.find? (fun p => p.1 == i)).map (fun p => p.2)))

/-- Iterated `start_watching`. -/
def startIter : Nat → WHost → WHost
  | 0, h => h
  | n + 1, h => (startWatching (startIter n h)).1

/-- The `__message_ids` invariant: the stored handles are exactly the ids
registered with the host, in registration order. -/
def WatcherInv (h : WHost) : Prop :=
  regIds h = h.messageIds

/-- Invariant carried through scene-event dispatch for a `run_once` watcher:
the callback has fired at most once, and once it has, every registration and
stored handle is gone. -/
def RunOnceInv (h : WHost) : Prop :=
  h.runOnce = true ∧ RegSub h ∧ h.cbCount ≤ 1 ∧
    (h.cbCount = 1 → h.registry = [] ∧ h.messageIds = [])

/-- The state `SceneEventWatcher.__init__` builds just before its
`start_watching` call. -/
def initWatcherState (cb : CbFn) (events : List MEvent) (runOnce : Bool)
    (failing : MEvent → Bool) : WHost :=
  { nextId := 0, registry := [], messageIds := [], cbCount := 0,
    cbFn := cb, sceneEvents := events, runOnce := runOnce, failing := failing }

/-- Whether an effect is `current_engine.destroy()`. -/
def isDestroyCall : Effect → Bool
  | .destroyEngineCall _ => true
  | _ => false

/-- Whether an effect is a `tank.platform.start_engine` call. -/
def isStartCall : Effect → Bool
  | .startEngineCall _ => true
  | _ => false

/-- Destroying the current engine or starting a new one. -/
def isDestroyOrStart (e : Effect) : Bool :=
  isDestroyCall e || isStartCall e

/-- Menu creation or deletion (or hooking a menu command). -/
def isMenuEffect : Effect → Bool
  | .newMenu _ _ => true
  | .newMenuItem _ _ => true
  | .deleteUI _ => true
  | .postMenuCommand _ => true
  | _ => false

/-- A display forwarded through `async_execute_in_main_thread`. -/
def isAsyncDisplayCall : Effect → Bool
  | .asyncMainThread _ _ => true
  | _ => false

/-- A direct (same-thread) `OpenMaya.MGlobal.display*` call. -/
def isDirectDisplayCall : Effect → Bool
  | .displayInfo _ => true
  | .displayWarning _ => true
  | .displayError _ => true
  | _ => false

/-- The watcher `on_scene_event_callback` schedules when no engine could be
obtained: run-once, default events, retrying the same callback arguments. -/
def retryWatcherSpec (engineName : String) (prevContext : Ctx) (menuName : String) :
    WatcherSpec :=
  { cbFn := CbFn.onSceneEvent engineName prevContext menuName,
    events := defaultSceneEvents, runOnce := true }

/-!
### Concrete fixtures for witnesses and counterexamples
-/
def sampleCtx : Ctx := { id := 0 }

def sampleEngine : Engine := { id := 1 }

def uiEmpty : UI := { batch := false, menus := [] }

def uiBatch : UI := { batch := true, menus := ["ShotgunMenu"] }

/-- A scene event arriving with no current engine: `refresh_engine` raises
`AttributeError` at `current_engine.sgtk`. -/
def envNoEngine : REnv :=
  { currentEngine := none, sceneName := "",
    tankFromPath := Except.ok { id := 0 },
    contextFromPath := Except.ok sampleCtx,
    startEngine := Except.ok sampleEngine }

/-- A file->new scene event with a current engine and no disabled menu. -/
def envIdle : REnv :=
  { currentEngine := some sampleEngine, sceneName := "",
    tankFromPath := Except.ok { id := 0 },
    contextFromPath := Except.ok sampleCtx,
    startEngine := Except.ok sampleEngine }

/-- A scene file whose path `tank.tank_from_path` rejects. -/
def envTankErr : REnv :=
  { currentEngine := some sampleEngine, sceneName := "/projects/other/scene.ma",
    tankFromPath := Except.error (PyErr.tankError "no pipeline configuration found"),
    contextFromPath := Except.ok sampleCtx,
    startEngine := Except.ok sampleEngine }

def sampleSettings : EngSettings :=
  { useSgtkAsMenuName := false, automaticContextSwitch := true,
    compatibilityDialogMinVersion := 2015, debugLogging := false,
    templateProject := none, runAtStartup := [] }

def initEnvSample : InitEnv :=
  { operatingSystem := "linux64", version := "2016", batch := false,
    compatShownInEnv := false, settings := sampleSettings,
    instanceName := "tk-maya", context := sampleCtx, metricOk := true,
    projPath := Except.ok "/projects/demo", diskLocation := "/engines/tk-maya",
    pyside2Present := true, pysidePresent := false, platform := "linux2",
    pysideImportOk := true }

def paiBatch : PAIEnv :=
  { batch := true, menuName := "Shotgun", engineName := "tk-maya",
    commands := [("Publish...", some "tk-multi-publish"), ("About...", none)],
    runAtStartup := [{ appInstance := "tk-multi-publish", name := "" },
                     { appInstance := "tk-multi-loader", name := "Load..." }] }

def destroyBatch : DestroyEnv :=
  { batch := true, automaticContextSwitch := true, menuExists := false }

def watcherFresh : WHost :=
  (mkWatcher (CbFn.opaqueFn 0) defaultSceneEvents false (fun _ => false)).1

/-- The watcher `init_engine` registers for `initEnvSample`. -/
def sampleWatcherSpec : WatcherSpec :=
  { cbFn := CbFn.onSceneEvent "tk-maya" sampleCtx "Shotgun",
    events := defaultSceneEvents, runOnce := false }

/-!
## Helper lemmas: lists and folds
-/

theorem foldl_preserve {α σ : Type _} (P : σ → Prop) (f : σ → α → σ)
    (hf : ∀ s a, P s → P (f s a)) :
    ∀ (l : List α) (s : σ), P s → P (l.foldl f s)
  | [], _, hs => hs
  | a :: l, s, hs => foldl_preserve P f hf l (f s a) (hf s a hs)

theorem map_congr_mem {α β : Type _} (f g : α → β) :
    ∀ l : List α, (∀ a ∈ l, f a = g a) → l.map f = l.map g
  | [], _ => rfl
  | a :: l, h => by
      rw [List.map_cons, List.map_cons, h a (List.mem_cons_self a l),
        map_congr_mem f g l (fun b hb => h b (List.mem_cons_of_mem a hb))]

/-- Membership in the registry after the `removeCallback` loop of
`stop_watching`. -/
theorem mem_removeFold (ids : List Nat) :
    ∀ (reg : List (Nat × MEvent × CBKind)) (p : Nat × MEvent × CBKind),
      (p ∈ ids.foldl (fun reg i => reg.filter (fun q => q.1 != i)) reg ↔
        p ∈ reg ∧ p.1 ∉ ids) := by
  induction ids with
  | nil => intro reg p; simp
  | cons i ids ih =>
      intro reg p
      rw [List.foldl_cons, ih]
      simp only [List.mem_filter, bne_iff_ne, ne_eq, List.mem_cons, decide_eq_true_eq]
      tauto

/-!
## Helper lemmas: `stop_watching` and `start_watching`
-/

theorem stopWatching_messageIds (h : WHost) : (stopWatching h).messageIds = [] := rfl

theorem stopWatching_registry_mem (h : WHost) (p : Nat × MEvent × CBKind) :
    p ∈ (stopWatching h).registry ↔ p ∈ h.registry ∧ p.1 ∉ h.messageIds :=
  mem_removeFold h.messageIds h.registry p

theorem stopWatching_registry_nil (h : WHost) (hsub : RegSub h) :
    (stopWatching h).registry = [] := by
  apply List.eq_nil_iff_forall_not_mem.mpr
  intro p hp
  rcases (stopWatching_registry_mem h p).mp hp with ⟨hmem, hnot⟩
  exact hnot (hsub p hmem)

theorem stopWatching_nextId (h : WHost) : (stopWatching h).nextId = h.nextId := rfl

theorem stopWatching_cbCount (h : WHost) : (stopWatching h).cbCount = h.cbCount := rfl

theorem stopWatching_cbFn (h : WHost) : (stopWatching h).cbFn = h.cbFn := rfl

theorem stopWatching_sceneEvents (h : WHost) :
    (stopWatching h).sceneEvents = h.sceneEvents := rfl

theorem stopWatching_runOnce (h : WHost) : (stopWatching h).runOnce = h.runOnce := rfl

theorem stopWatching_failing (h : WHost) : (stopWatching h).failing = h.failing := rfl

/-- Full characterisation of the scene-event registration loop of
`start_watching`, folded over an arbitrary starting state. -/
theorem foldAdd_spec (l : List MEvent) : ∀ h : WHost,
    ((l.foldl (fun h ev => addCallbackTry h ev CBKind.sceneEvent) h).registry
        = h.registry ++ builtEntries h.failing h.nextId l)
    ∧ ((l.foldl (fun h ev => addCallbackTry h ev CBKind.sceneEvent) h).messageIds
        = h.messageIds ++ (builtEntries h.failing h.nextId l).map (fun p => p.1))
    ∧ ((l.foldl (fun h ev => addCallbackTry h ev CBKind.sceneEvent) h).nextId
        = h.nextId + (builtEntries h.failing h.nextId l).length)
    ∧ ((l.foldl (fun h ev => addCallbackTry h ev CBKind.sceneEvent) h).cbCount = h.cbCount)
    ∧ ((l.foldl (fun h ev => addCallbackTry h ev CBKind.sceneEvent) h).cbFn = h.cbFn)
    ∧ ((l.foldl (fun h ev => addCallbackTry h ev CBKind.sceneEvent) h).sceneEvents
        = h.sceneEvents)
    ∧ ((l.foldl (fun h ev => addCallbackTry h ev CBKind.sceneEvent) h).runOnce = h.runOnce)
    ∧ ((l.foldl (fun h ev => addCallbackTry h ev CBKind.sceneEvent) h).failing = h.failing) := by
  induction l with
  | nil => intro h; simp [builtEntries]
  | cons ev l ih =>
      intro h
      rw [List.foldl_cons]
      by_cases hf : h.failing ev
      · have hid : addCallbackTry h ev CBKind.sceneEvent = h := by
          simp [addCallbackTry, hf]
        rw [hid]
        have hb : builtEntries h.failing h.nextId (ev :: l)
            = builtEntries h.failing h.nextId l := by
          simp [builtEntries, hf]
        rw [hb]
        exact ih h
      · have hstep : addCallbackTry h ev CBKind.sceneEvent =
            { h with
              registry := h.registry ++ [(h.nextId, ev, CBKind.sceneEvent)]
              messageIds := h.messageIds ++ [h.nextId]
              nextId := h.nextId + 1 } := by
          simp [addCallbackTry, hf]
        rw [hstep]
        obtain ⟨h1, h2, h3, h4, h5, h6, h7, h8⟩ := ih
          { h with
            registry := h.registry ++ [(h.nextId, ev, CBKind.sceneEvent)]
            messageIds := h.messageIds ++ [h.nextId]
            nextId := h.nextId + 1 }
        have hb : builtEntries h.failing h.nextId (ev :: l)
            = (h.nextId, ev, CBKind.sceneEvent) :: builtEntries h.failing (h.nextId + 1) l := by
          simp [builtEntries, hf]
        refine ⟨?_, ?_, ?_, h4, h5, h6, h7, h8⟩
        · rw [h1, hb]; simp
        · rw [h2, hb]; simp
        · rw [h3, hb]; simp only [List.length_cons]; omega

theorem stopWatching_eq (h : WHost) (hsub : RegSub h) :
    stopWatching h = { h with registry := [], messageIds := [] } := by
  have hr := stopWatching_registry_nil h hsub
  cases h with
  | mk nextId registry messageIds cbCount cbFn sceneEvents runOnce failing =>
      simp only [stopWatching] at hr ⊢
      rw [hr]

/-- Full characterisation of `start_watching` from a state satisfying the
handle invariant. -/
theorem startWatching_spec (h : WHost) (hsub : RegSub h) :
    ((startWatching h).1.registry = startedRegistry h.failing h.nextId h.sceneEvents)
    ∧ ((startWatching h).1.messageIds
        = (startedRegistry h.failing h.nextId h.sceneEvents).map (fun p => p.1))
    ∧ ((startWatching h).1.cbCount = h.cbCount)
    ∧ ((startWatching h).1.cbFn = h.cbFn)
    ∧ ((startWatching h).1.sceneEvents = h.sceneEvents)
    ∧ ((startWatching h).1.runOnce = h.runOnce)
    ∧ ((startWatching h).1.failing = h.failing)
    ∧ ((startWatching h).2 = !h.failing MEvent.kMayaExiting) := by
  have hrnil := stopWatching_registry_nil h hsub
  obtain ⟨f1, f2, f3, f4, f5, f6, f7, f8⟩ :=
    foldAdd_spec (stopWatching h).sceneEvents (stopWatching h)
  set g := (stopWatching h).sceneEvents.foldl
      (fun h ev => addCallbackTry h ev CBKind.sceneEvent) (stopWatching h) with hg
  have hsw : startWatching h =
      (if g.failing MEvent.kMayaExiting then (g, false)
       else ({ g with
                registry := g.registry ++ [(g.nextId, MEvent.kMayaExiting, CBKind.mayaExiting)]
                messageIds := g.messageIds ++ [g.nextId]
                nextId := g.nextId + 1 }, true)) := by
    rw [hg]; rfl
  have hfg : g.failing = h.failing := f8
  have hreg : g.registry = builtEntries h.failing h.nextId h.sceneEvents := by
    rw [f1, hrnil, stopWatching_failing, stopWatching_nextId, stopWatching_sceneEvents,
      List.nil_append]
  have hmsg : g.messageIds
      = (builtEntries h.failing h.nextId h.sceneEvents).map (fun p => p.1) := by
    rw [f2, stopWatching_messageIds, stopWatching_failing, stopWatching_nextId,
      stopWatching_sceneEvents, List.nil_append]
  have hnext : g.nextId
      = h.nextId + (builtEntries h.failing h.nextId h.sceneEvents).length := by
    rw [f3, stopWatching_nextId, stopWatching_failing, stopWatching_sceneEvents]
  have hcb : g.cbCount = h.cbCount := f4
  have hfn : g.cbFn = h.cbFn := f5
  have hse : g.sceneEvents = h.sceneEvents := f6
  have hro : g.runOnce = h.runOnce := f7
  rw [hsw]
  by_cases hfail : h.failing MEvent.kMayaExiting
  · rw [if_pos (by rw [hfg]; exact hfail)]
    refine ⟨?_, ?_, hcb, hfn, hse, hro, hfg, by simp [hfail]⟩
    · rw [hreg]; simp [startedRegistry, hfail]
    · rw [hmsg]; simp [startedRegistry, hfail]
  · rw [if_neg (by rw [hfg]; simpa using hfail)]
    refine ⟨?_, ?_, hcb, hfn, hse, hro, hfg, by simp [hfail]⟩
    · show g.registry ++ [(g.nextId, MEvent.kMayaExiting, CBKind.mayaExiting)] = _
      rw [hreg, hnext]
      simp [startedRegistry, hfail]
    · show g.messageIds ++ [g.nextId] = _
      rw [hmsg, hnext]
      simp [startedRegistry, hfail]

theorem builtEntries_snd (f : MEvent → Bool) : ∀ (n : Nat) (l : List MEvent),
    (builtEntries f n l).map (fun p => p.2)
      = (l.filter (fun ev => !f ev)).map (fun ev => (ev, CBKind.sceneEvent)) := by
  intro n l
  induction l generalizing n with
  | nil => rfl
  | cons ev l ih =>
      by_cases hf : f ev
      · simp [builtEntries, hf, List.filter_cons, ih]
      · simp [builtEntries, hf, List.filter_cons, ih]

theorem builtEntries_length (f : MEvent → Bool) (n : Nat) (l : List MEvent) :
    (builtEntries f n l).length = (l.filter (fun ev => !f ev)).length := by
  have := congrArg List.length (builtEntries_snd f n l)
  simpa using this

theorem builtEntries_ids_ge (f : MEvent → Bool) : ∀ (n : Nat) (l : List MEvent)
    (p : Nat × MEvent × CBKind), p ∈ builtEntries f n l → n ≤ p.1 := by
  intro n l
  induction l generalizing n with
  | nil => intro p hp; simp [builtEntries] at hp
  | cons ev l ih =>
      intro p hp
      by_cases hf : f ev
      · rw [builtEntries, if_pos hf] at hp
        exact ih n p hp
      · rw [builtEntries, if_neg hf] at hp
        rcases List.mem_cons.mp hp with h | h
        · rw [h]
        · exact Nat.le_of_succ_le (ih (n + 1) p h)

theorem builtEntries_ids_lt (f : MEvent → Bool) : ∀ (n : Nat) (l : List MEvent)
    (p : Nat × MEvent × CBKind), p ∈ builtEntries f n l →
      p.1 < n + (builtEntries f n l).length := by
  intro n l
  induction l generalizing n with
  | nil => intro p hp; simp [builtEntries] at hp
  | cons ev l ih =>
      intro p hp
      by_cases hf : f ev
      · rw [builtEntries, if_pos hf] at hp ⊢
        exact ih n p hp
      · rw [builtEntries, if_neg hf] at hp ⊢
        rcases List.mem_cons.mp hp with h | h
        · rw [h]; simp
        · have := ih (n + 1) p h
          simp only [List.length_cons]
          omega

theorem builtEntries_ids_nodup (f : MEvent → Bool) : ∀ (n : Nat) (l : List MEvent),
    ((builtEntries f n l).map (fun p => p.1)).Nodup := by
  intro n l
  induction l generalizing n with
  | nil => simp [builtEntries]
  | cons ev l ih =>
      by_cases hf : f ev
      · rw [builtEntries, if_pos hf]; exact ih n
      · rw [builtEntries, if_neg hf]
        rw [List.map_cons, List.nodup_cons]
        refine ⟨?_, ih (n + 1)⟩
        intro hmem
        rcases List.mem_map.mp hmem with ⟨p, hp, hpn⟩
        have := builtEntries_ids_ge f (n + 1) l p hp
        omega

theorem startedRegistry_snd (f : MEvent → Bool) (n : Nat) (events : List MEvent) :
    (startedRegistry f n events).map (fun p => p.2) = startedSnd f events := by
  rw [startedRegistry, startedSnd, List.map_append, builtEntries_snd]
  by_cases hf : f MEvent.kMayaExiting
  · simp [hf]
  · simp [hf]

theorem startedRegistry_ids_nodup (f : MEvent → Bool) (n : Nat) (events : List MEvent) :
    ((startedRegistry f n events).map (fun p => p.1)).Nodup := by
  rw [startedRegistry, List.map_append]
  apply List.Nodup.append (builtEntries_ids_nodup f n events)
  · by_cases hf : f MEvent.kMayaExiting
    · simp [hf]
    · simp [hf]
  · intro i hi hmem
    rcases List.mem_map.mp hi with ⟨p, hp, hpn⟩
    have hlt := builtEntries_ids_lt f n events p hp
    by_cases hf : f MEvent.kMayaExiting
    · simp [hf] at hmem
    · simp [hf] at hmem
      omega

theorem find_self_of_nodup : ∀ (reg : List (Nat × MEvent × CBKind)),
    ((reg.map (fun p => p.1)).Nodup) →
      ∀ p ∈ reg, reg.find? (fun q => q.1 == p.1) = some p := by
  intro reg
  induction reg with
  | nil => intro _ p hp; simp at hp
  | cons q reg ih =>
      intro hnd p hp
      rw [List.map_cons, List.nodup_cons] at hnd
      rcases List.mem_cons.mp hp with h | h
      · rw [h]
        exact List.find?_cons_of_pos _ (by simp)
      · have hne : (q.1 == p.1) = false := by
          by_contra hc
          rw [Bool.not_eq_false, beq_iff_eq] at hc
          exact hnd.1 (hc ▸ List.mem_map.mpr ⟨p, h, rfl⟩)
        rw [List.find?_cons_of_neg _ (by simp [hne]), ih hnd.2 p h]

theorem map_find_self (reg : List (Nat × MEvent × CBKind))
    (hnd : (reg.map (fun p => p.1)).Nodup) :
    (reg.map (fun p => p.1)).map
        (fun i => (reg.find? (fun q => q.1 == i)).map (fun q => q.2))
      = reg.map (fun p => some p.2) := by
  rw [List.map_map]
  apply map_congr_mem
  intro p hp
  simp only [Function.comp_apply]
  rw [find_self_of_nodup reg hnd p hp]
  rfl

theorem regSub_of_watcherInv (h : WHost) (hinv : WatcherInv h) : RegSub h := by
  intro p hp
  have hm : p.1 ∈ regIds h := List.mem_map_of_mem (fun q => q.1) hp
  rwa [hinv] at hm

theorem startWatching_watcherInv (h : WHost) (hsub : RegSub h) :
    WatcherInv (startWatching h).1 := by
  obtain ⟨r1, r2, -, -, -, -, -, -⟩ := startWatching_spec h hsub
  show regIds (startWatching h).1 = (startWatching h).1.messageIds
  rw [regIds, r1, r2]

theorem stopWatching_watcherInv (h : WHost) (hsub : RegSub h) :
    WatcherInv (stopWatching h) := by
  show regIds (stopWatching h) = (stopWatching h).messageIds
  rw [regIds, stopWatching_registry_nil h hsub, stopWatching_messageIds]
  rfl

theorem sceneEventCb_watcherInv (h : WHost) (hinv : WatcherInv h) :
    WatcherInv (sceneEventCb h) := by
  have hsub := regSub_of_watcherInv h hinv
  by_cases hro : h.runOnce
  · have hsc : sceneEventCb h
        = { stopWatching h with cbCount := (stopWatching h).cbCount + 1 } := by
      simp [sceneEventCb, hro]
    rw [hsc]
    exact stopWatching_watcherInv h hsub
  · have hsc : sceneEventCb h = { h with cbCount := h.cbCount + 1 } := by
      simp [sceneEventCb, hro]
    rw [hsc]
    exact hinv

theorem mayaExitingCb_watcherInv (h : WHost) (hinv : WatcherInv h) :
    WatcherInv (mayaExitingCb h) :=
  stopWatching_watcherInv h (regSub_of_watcherInv h hinv)

theorem mkWatcher_watcherInv (cb : CbFn) (events : List MEvent) (ro : Bool)
    (failing : MEvent → Bool) : WatcherInv (mkWatcher cb events ro failing).1 :=
  startWatching_watcherInv _ (fun p hp => absurd hp (List.not_mem_nil p))

theorem regState_startWatching (h : WHost) (hsub : RegSub h) :
    regState (startWatching h).1
      = (startedSnd h.failing h.sceneEvents,
         (startedSnd h.failing h.sceneEvents).length,
         (startedSnd h.failing h.sceneEvents).map (fun x => some x)) := by
  obtain ⟨r1, r2, -, -, -, -, -, -⟩ := startWatching_spec h hsub
  rw [regState, r1, r2]
  congr 1
  · exact startedRegistry_snd _ _ _
  congr 1
  · rw [List.length_map, ← startedRegistry_snd h.failing h.nextId h.sceneEvents,
      List.length_map]
  · rw [map_find_self _ (startedRegistry_ids_nodup h.failing h.nextId h.sceneEvents),
      ← startedRegistry_snd h.failing h.nextId h.sceneEvents, List.map_map]
    rfl

theorem startIter_facts (h : WHost) (hsub : RegSub h) : ∀ n : Nat,
    RegSub (startIter n h)
    ∧ (startIter n h).failing = h.failing
    ∧ (startIter n h).sceneEvents = h.sceneEvents := by
  intro n
  induction n with
  | zero => exact ⟨hsub, rfl, rfl⟩
  | succ n ih =>
      obtain ⟨ihsub, ihf, ihs⟩ := ih
      obtain ⟨r1, r2, -, -, r5, -, r7, -⟩ := startWatching_spec (startIter n h) ihsub
      have hstep : startIter (n + 1) h = (startWatching (startIter n h)).1 := rfl
      refine ⟨?_, ?_, ?_⟩
      · intro p hp
        rw [hstep] at hp ⊢
        rw [r2]
        rw [r1] at hp
        exact List.mem_map_of_mem (fun q => q.1) hp
      · rw [hstep, r7, ihf]
      · rw [hstep, r5, ihs]

theorem startIter_regState (h : WHost) (hsub : RegSub h) (n : Nat) :
    regState (startIter (n + 1) h)
      = (startedSnd h.failing h.sceneEvents,
         (startedSnd h.failing h.sceneEvents).length,
         (startedSnd h.failing h.sceneEvents).map (fun x => some x)) := by
  obtain ⟨hs, hf, hsc⟩ := startIter_facts h hsub n
  have hr := regState_startWatching (startIter n h) hs
  have hstep : startIter (n + 1) h = (startWatching (startIter n h)).1 := rfl
  rw [hstep, hr, hf, hsc]

theorem dispatchStep_runOnce (p : Nat × MEvent × CBKind) (h : WHost)
    (h8 : RunOnceInv h) :
    RunOnceInv (if h.registry.any (fun q => q.1 == p.1) then
        match p.2.2 with
        | CBKind.sceneEvent => sceneEventCb h
        | CBKind.mayaExiting => mayaExitingCb h
      else h) := by
  obtain ⟨hro, hsub, hle, hone⟩ := h8
  by_cases hany : h.registry.any (fun q => q.1 == p.1)
  · rw [if_pos hany]
    have hc0 : h.cbCount = 0 := by
      by_contra hne
      have h1 : h.cbCount = 1 := by omega
      rw [(hone h1).1] at hany
      simp at hany
    have hstopro : (stopWatching h).runOnce = true := by
      rw [stopWatching_runOnce, hro]
    have hstopnil : (stopWatching h).registry = [] := stopWatching_registry_nil h hsub
    rcases p with ⟨i, ev, k⟩
    cases k
    · have hsc : sceneEventCb h
          = { stopWatching h with cbCount := (stopWatching h).cbCount + 1 } := by
        simp [sceneEventCb, hro]
      show RunOnceInv (sceneEventCb h)
      rw [hsc]
      refine ⟨hstopro, ?_, ?_, fun _ => ⟨hstopnil, stopWatching_messageIds h⟩⟩
      · intro q hq
        rw [show ({ stopWatching h with
            cbCount := (stopWatching h).cbCount + 1 } : WHost).registry
          = (stopWatching h).registry from rfl, hstopnil] at hq
        exact absurd hq (List.not_mem_nil q)
      · show (stopWatching h).cbCount + 1 ≤ 1
        rw [stopWatching_cbCount, hc0]
    · show RunOnceInv (mayaExitingCb h)
      rw [mayaExitingCb]
      refine ⟨hstopro, ?_, ?_, fun _ => ⟨hstopnil, stopWatching_messageIds h⟩⟩
      · intro q hq
        rw [hstopnil] at hq
        exact absurd hq (List.not_mem_nil q)
      · rw [stopWatching_cbCount, hc0]
        omega
  · rw [if_neg hany]
    exact ⟨hro, hsub, hle, hone⟩

theorem dispatchEvent_runOnce (h : WHost) (ev : MEvent) (h8 : RunOnceInv h) :
    RunOnceInv (dispatchEvent h ev) := by
  rw [dispatchEvent]
  exact foldl_preserve RunOnceInv _ (fun s a hs => dispatchStep_runOnce a s hs) _ h h8

theorem dispatchEvents_runOnce (h : WHost) (l : List MEvent) (h8 : RunOnceInv h) :
    RunOnceInv (dispatchEvents h l) := by
  rw [dispatchEvents]
  exact foldl_preserve RunOnceInv _ (fun s a hs => dispatchEvent_runOnce s a hs) l h h8

theorem mkWatcher_runOnceInv (cb : CbFn) (events : List MEvent)
    (failing : MEvent → Bool) : RunOnceInv (mkWatcher cb events true failing).1 := by
  have hsub0 : RegSub (initWatcherState cb events true failing) :=
    fun p hp => absurd hp (List.not_mem_nil p)
  obtain ⟨r1, r2, r3, -, -, r6, -, -⟩ := startWatching_spec _ hsub0
  have hinv := startWatching_watcherInv _ hsub0
  have hmk : (mkWatcher cb events true failing).1
      = (startWatching (initWatcherState cb events true failing)).1 := rfl
  refine ⟨?_, ?_, ?_, ?_⟩
  · rw [hmk, r6]; exact rfl
  · rw [hmk]; exact regSub_of_watcherInv _ hinv
  · rw [hmk, r3]; exact Nat.zero_le 1
  · intro hone
    rw [hmk, r3] at hone
    simp [initWatcherState] at hone

/-!
## Helper lemmas: menus and `refresh_engine`
-/

theorem remove_not_present (ui : UI) (h : "ShotgunMenuDisabled" ∉ ui.menus) :
    removeSgtkDisabledMenu ui = (false, ui, []) := by
  by_cases hb : ui.batch <;> simp [removeSgtkDisabledMenu, hb, h]

theorem remove_batch_flag (ui : UI) :
    ((removeSgtkDisabledMenu ui).2.1).batch = ui.batch := by
  by_cases hb : ui.batch
  · simp [removeSgtkDisabledMenu, hb]
  · by_cases hm : "ShotgunMenuDisabled" ∈ ui.menus <;>
      simp [removeSgtkDisabledMenu, hb, hm]

theorem remove_effects_mem (ui : UI) :
    ∀ e ∈ (removeSgtkDisabledMenu ui).2.2, e = Effect.deleteUI "ShotgunMenuDisabled" := by
  by_cases hb : ui.batch
  · simp [removeSgtkDisabledMenu, hb]
  · by_cases hm : "ShotgunMenuDisabled" ∈ ui.menus <;>
      simp [removeSgtkDisabledMenu, hb, hm]

theorem create_effects_mem (n : String) (ui : UI) :
    ∀ e ∈ (createSgtkDisabledMenu n ui).2, isMenuEffect e = true := by
  by_cases hb : ui.batch
  · simp [createSgtkDisabledMenu, hb]
  · by_cases hm : "ShotgunMenu" ∈ ui.menus <;>
      simp [createSgtkDisabledMenu, hb, hm, isMenuEffect]

theorem create_mem (n : String) (ui : UI) (hb : ui.batch = false) :
    "ShotgunMenuDisabled" ∈ (createSgtkDisabledMenu n ui).1.menus
    ∧ Effect.newMenu "ShotgunMenuDisabled" n ∈ (createSgtkDisabledMenu n ui).2 := by
  by_cases hm : "ShotgunMenu" ∈ ui.menus <;>
    simp [createSgtkDisabledMenu, hb, hm]

theorem menuEffect_not_destroy (e : Effect) (hm : isMenuEffect e = true) :
    isDestroyCall e = false := by
  cases e <;> simp_all [isMenuEffect, isDestroyCall]

theorem startedSnd_fst (f : MEvent → Bool) (events : List MEvent) :
    (startedSnd f events).map (fun x => x.1)
      = events.filter (fun ev => !f ev)
        ++ (if f MEvent.kMayaExiting then [] else [MEvent.kMayaExiting]) := by
  rw [startedSnd, List.map_append, List.map_map]
  have hc : ((fun x : MEvent × CBKind => x.1) ∘ fun ev => (ev, CBKind.sceneEvent))
      = fun ev : MEvent => ev := rfl
  rw [hc]
  by_cases hf : f MEvent.kMayaExiting <;> simp [hf]

theorem startedRegistry_events_nodup (f : MEvent → Bool) (n : Nat) (events : List MEvent)
    (hnd : (events ++ [MEvent.kMayaExiting]).Nodup) :
    ((startedRegistry f n events).map (fun p => p.2.1)).Nodup := by
  have hmm : (startedRegistry f n events).map (fun p => p.2.1)
      = (startedSnd f events).map (fun x => x.1) := by
    rw [← startedRegistry_snd f n events, List.map_map]
    rfl
  rw [hmm, startedSnd_fst]
  apply List.Nodup.sublist _ hnd
  apply List.Sublist.append (List.filter_sublist events)
  by_cases hf : f MEvent.kMayaExiting
  · rw [if_pos hf]; exact List.nil_sublist _
  · rw [if_neg hf]

theorem initEngineTail_ok (env : InitEnv) (mayaVer : String) (effs0 : List Effect)
    (out : String × Option WatcherSpec)
    (hrun : (initEngineTail env mayaVer effs0).1 = Except.ok out) :
    out = ((if env.settings.useSgtkAsMenuName then "Sgtk" else "Shotgun"),
      (if env.settings.automaticContextSwitch then
          some { cbFn := CbFn.onSceneEvent env.instanceName env.context
                   (if env.settings.useSgtkAsMenuName then "Sgtk" else "Shotgun"),
                 events := defaultSceneEvents, runOnce := false }
        else none)) := by
  rcases hproj : setProjectEffects env with e | projEffs
  · rw [initEngineTail] at hrun
    simp [hproj] at hrun
  · by_cases hauto : env.settings.automaticContextSwitch
    · rw [initEngineTail] at hrun
      simp [hproj, hauto] at hrun
      simp [hauto, ← hrun]
    · rw [initEngineTail] at hrun
      simp [hproj, hauto] at hrun
      simp [hauto, ← hrun]

theorem initEngine_ok_out (env : InitEnv) (out : String × Option WatcherSpec)
    (hrun : (initEngine env).1 = Except.ok out) :
    out = ((if env.settings.useSgtkAsMenuName then "Sgtk" else "Shotgun"),
      (if env.settings.automaticContextSwitch then
          some { cbFn := CbFn.onSceneEvent env.instanceName env.context
                   (if env.settings.useSgtkAsMenuName then "Sgtk" else "Shotgun"),
                 events := defaultSceneEvents, runOnce := false }
        else none)) := by
  rw [initEngine] at hrun
  by_cases hos : env.operatingSystem ∉ ["mac", "win64", "linux64"]
  · rw [if_pos hos] at hrun
    simp at hrun
  · rw [if_neg hos] at hrun
    by_cases hv1 : ["2014", "2015", "2016"].any
        (fun p => strStartsWith (mayaVersionOf env.version) p)
    · rw [if_pos hv1] at hrun
      exact initEngineTail_ok env _ _ out hrun
    · rw [if_neg hv1] at hrun
      by_cases hv2 : ["2012", "2013"].any
          (fun p => strStartsWith (mayaVersionOf env.version) p)
      · rw [if_pos hv2] at hrun
        simp at hrun
      · rw [if_neg hv2] at hrun
        exact initEngineTail_ok env _ _ out hrun

theorem runStartupEntry_no_menu (env : PAIEnv) (s : RunAtStartup) :
    ∀ e ∈ runStartupEntry env s, isMenuEffect e = false := by
  intro e he
  rw [runStartupEntry] at he
  split_ifs at he with h1 h2 h3
  · simp at he; subst he; rfl
  · rcases List.mem_flatten.mp he with ⟨sub, hsub, hesub⟩
    rcases List.mem_map.mp hsub with ⟨c, hc, hcsub⟩
    rw [← hcsub] at hesub
    simp at hesub
    rcases hesub with rfl | rfl <;> rfl
  · simp at he
    rcases he with rfl | rfl <;> rfl
  · simp at he; subst he; rfl

theorem runAppInstanceCommands_no_menu (env : PAIEnv) :
    ∀ e ∈ runAppInstanceCommands env, isMenuEffect e = false := by
  intro e he
  rw [runAppInstanceCommands] at he
  rcases List.mem_flatten.mp he with ⟨sub, hsub, hesub⟩
  rcases List.mem_map.mp hsub with ⟨s, hs, hssub⟩
  rw [← hssub] at hesub
  exact runStartupEntry_no_menu env s e hesub

/-!
## Claim theorems
-/

/-- C1: in `refresh_engine` the context is only compared for equality: when a
current engine exists, the context derived for the scene equals
`prev_context`, and the disabled menu was not previously present, the
existing engine is returned unchanged — no `destroy` and no `start_engine`
call appears in the trace. -/
theorem refresh_engine_opaque_context_no_rebuild
    (env : REnv) (ce : Engine) (engineName : String) (prevContext : Ctx)
    (menuName : String) (ui : UI)
    (hce : env.currentEngine = some ce)
    (hmenu : "ShotgunMenuDisabled" ∉ ui.menus)
    (hctx : env.sceneName = "" ∨ ((∃ tk, env.tankFromPath = Except.ok tk)
        ∧ env.contextFromPath = Except.ok prevContext)) :
    (refreshEngine env engineName prevContext menuName ui).1 = Except.ok (some ce)
    ∧ ((refreshEngine env engineName prevContext menuName ui).2.2).all
        (fun e => !isDestroyOrStart e) = true := by
  have hrm := remove_not_present ui hmenu
  by_cases hscene : env.sceneName = ""
  · constructor <;> simp [refreshEngine, hrm, hce, hscene]
  · rcases hctx with h | ⟨⟨tk, htk⟩, hpc⟩
    · exact absurd h hscene
    · constructor <;>
        simp [refreshEngine, refreshRestart, hrm, hce, hscene, htk, hpc]

/-- C1 witness: a concrete file->new scene event with an unchanged context
returns the running engine untouched. -/
theorem refresh_engine_opaque_context_no_rebuild_witness :
    (refreshEngine envIdle "tk-maya" sampleCtx "Shotgun" uiEmpty).1
        = Except.ok (some sampleEngine)
    ∧ ((refreshEngine envIdle "tk-maya" sampleCtx "Shotgun" uiEmpty).2.2).all
        (fun e => !isDestroyOrStart e) = true :=
  refresh_engine_opaque_context_no_rebuild envIdle sampleEngine "tk-maya" sampleCtx
    "Shotgun" uiEmpty rfl (by simp [uiEmpty]) (Or.inl rfl)

/-- C3: when `tank.tank_from_path` raises a `TankError` for a non-empty scene
name, `refresh_engine` displays the informational message, invokes
`create_sgtk_disabled_menu` (which builds the disabled menu whenever a UI
exists), and returns the existing current engine with no `destroy` call in
the trace. -/
theorem refresh_engine_tank_error_disables
    (env : REnv) (ce : Engine) (e : PyErr) (engineName : String) (prevContext : Ctx)
    (menuName : String) (ui : UI)
    (hce : env.currentEngine = some ce)
    (hscene : ¬env.sceneName = "")
    (htank : env.tankFromPath = Except.error e)
    (hte : e.isTankError = true) :
    (refreshEngine env engineName prevContext menuName ui).1 = Except.ok (some ce)
    ∧ Effect.displayInfo ("Shotgun: Engine cannot be started: " ++ e.text)
        ∈ (refreshEngine env engineName prevContext menuName ui).2.2
    ∧ (ui.batch = false →
        "ShotgunMenuDisabled"
            ∈ (refreshEngine env engineName prevContext menuName ui).2.1.menus
        ∧ Effect.newMenu "ShotgunMenuDisabled" menuName
            ∈ (refreshEngine env engineName prevContext menuName ui).2.2)
    ∧ ((refreshEngine env engineName prevContext menuName ui).2.2).all
        (fun x => !isDestroyCall x) = true := by
  rcases hrem : removeSgtkDisabledMenu ui with ⟨b, ui1, effs1⟩
  rcases hcr : createSgtkDisabledMenu menuName ui1 with ⟨ui2, effs2⟩
  have hres : refreshEngine env engineName prevContext menuName ui
      = (Except.ok (some ce), ui2,
         (effs1 ++ [Effect.displayInfo ("Shotgun: Engine cannot be started: " ++ e.text)])
           ++ effs2) := by
    simp [refreshEngine, hrem, hce, hscene, htank, hte, hcr]
  have hb1 : ui1.batch = ui.batch := by
    have hrb := remove_batch_flag ui
    rw [hrem] at hrb
    exact hrb
  have hrr := remove_effects_mem ui
  rw [hrem] at hrr
  have hcc := create_effects_mem menuName ui1
  rw [hcr] at hcc
  rw [hres]
  refine ⟨rfl, by simp, ?_, ?_⟩
  · intro hbatch
    have hcm := create_mem menuName ui1 (hb1.trans hbatch)
    rw [hcr] at hcm
    exact ⟨hcm.1, by simp [hcm.2]⟩
  · have h1 : effs1.all (fun x => !isDestroyCall x) = true := by
      apply List.all_eq_true.mpr
      intro x hx
      rw [hrr x hx]
      rfl
    have h2 : effs2.all (fun x => !isDestroyCall x) = true := by
      apply List.all_eq_true.mpr
      intro x hx
      rw [menuEffect_not_destroy x (hcc x hx)]
      rfl
    rw [List.all_append, List.all_append, h1, h2]
    rfl

/-- C3 witness: a concrete rejected scene path keeps the engine and builds
the disabled menu. -/
theorem refresh_engine_tank_error_disables_witness :
    (refreshEngine envTankErr "tk-maya" sampleCtx "Shotgun" uiEmpty).1
        = Except.ok (some sampleEngine)
    ∧ Effect.displayInfo
        ("Shotgun: Engine cannot be started: " ++
          (PyErr.tankError "no pipeline configuration found").text)
        ∈ (refreshEngine envTankErr "tk-maya" sampleCtx "Shotgun" uiEmpty).2.2
    ∧ ("ShotgunMenuDisabled"
        ∈ (refreshEngine envTankErr "tk-maya" sampleCtx "Shotgun" uiEmpty).2.1.menus
      ∧ Effect.newMenu "ShotgunMenuDisabled" "Shotgun"
        ∈ (refreshEngine envTankErr "tk-maya" sampleCtx "Shotgun" uiEmpty).2.2)
    ∧ ((refreshEngine envTankErr "tk-maya" sampleCtx "Shotgun" uiEmpty).2.2).all
        (fun x => !isDestroyCall x) = true := by
  have t := refresh_engine_tank_error_disables envTankErr sampleEngine
      (PyErr.tankError "no pipeline configuration found") "tk-maya" sampleCtx
      "Shotgun" uiEmpty rfl (by simp [envTankErr]) rfl rfl
  exact ⟨t.1, t.2.1, t.2.2.1 rfl, t.2.2.2⟩

/-- C4: `on_scene_event_callback` never propagates an exception: whenever
`refresh_engine` raises, the exception is caught, the formatted message is
shown through `OpenMaya.MGlobal.displayError`, and the function completes
normally (here: returns its tuple, with the retry watcher installed since no
engine was obtained). -/
theorem on_scene_event_callback_catches
    (env : REnv) (engineName : String) (prevContext : Ctx) (menuName : String)
    (ui : UI) (e : PyErr) (ui1 : UI) (effs : List Effect)
    (herr : refreshEngine env engineName prevContext menuName ui
        = (Except.error e, ui1, effs)) :
    onSceneEventCallback env engineName prevContext menuName ui
      = (none, some (retryWatcherSpec engineName prevContext menuName), ui1,
         effs ++ [Effect.displayError (callbackErrorMessage e)]) := by
  simp [onSceneEventCallback, herr, retryWatcherSpec]

/-- C4 witness: the `AttributeError` raised when no current engine exists is
caught and displayed. -/
theorem on_scene_event_callback_catches_witness :
    onSceneEventCallback envNoEngine "tk-maya" sampleCtx "Shotgun" uiEmpty
      = (none, some (retryWatcherSpec "tk-maya" sampleCtx "Shotgun"), uiEmpty,
         [Effect.displayError (callbackErrorMessage (PyErr.otherError
            "exceptions.AttributeError"
            "\x27NoneType\x27 object has no attribute \x27sgtk\x27"))]) :=
  on_scene_event_callback_catches envNoEngine "tk-maya" sampleCtx "Shotgun" uiEmpty
    _ _ _ rfl

/-- C2 counterexample: at a concrete scene event where the engine refresh
fails (no current engine, so `refresh_engine` raises), a further refresh
attempt IS scheduled: `on_scene_event_callback` constructs a run-once
`SceneEventWatcher`, contradicting "no further attempt to refresh the engine
is scheduled for a later scene event". -/
theorem on_scene_event_retry_counterexample :
    ((refreshEngine envNoEngine "tk-maya" sampleCtx "Shotgun" uiEmpty).1
        = Except.error (PyErr.otherError "exceptions.AttributeError"
            "\x27NoneType\x27 object has no attribute \x27sgtk\x27"))
    ∧ (onSceneEventCallback envNoEngine "tk-maya" sampleCtx "Shotgun" uiEmpty).2.1
        ≠ none := by
  refine ⟨rfl, fun hcontra => ?_⟩
  have hsome : (onSceneEventCallback envNoEngine "tk-maya" sampleCtx "Shotgun" uiEmpty).2.1
      = some (retryWatcherSpec "tk-maya" sampleCtx "Shotgun") := rfl
  rw [hsome] at hcontra
  exact Option.noConfusion hcontra

/-- C2 (amended): when the engine refresh fails (raises or yields no
engine), `on_scene_event_callback` schedules exactly one further attempt: a
run-once watcher on the default scene events whose callback re-invokes
`on_scene_event_callback` with the same arguments, so the next scene event
re-attempts the refresh (once). -/
theorem on_scene_event_schedules_single_retry
    (env : REnv) (engineName : String) (prevContext : Ctx) (menuName : String) (ui : UI)
    (hfail : ∀ ngn : Engine,
        (refreshEngine env engineName prevContext menuName ui).1
          ≠ Except.ok (some ngn)) :
    (onSceneEventCallback env engineName prevContext menuName ui).2.1
        = some (retryWatcherSpec engineName prevContext menuName)
    ∧ ∀ ev ∈ defaultSceneEvents,
        (dispatchEvent (mkWatcher (CbFn.onSceneEvent engineName prevContext menuName)
            defaultSceneEvents true (fun _ => false)).1 ev).cbCount = 1 := by
  constructor
  · rcases hres : refreshEngine env engineName prevContext menuName ui with ⟨res, ui1, effs⟩
    cases res with
    | error e => simp [onSceneEventCallback, hres, retryWatcherSpec]
    | ok ne =>
        cases ne with
        | none => simp [onSceneEventCallback, hres, retryWatcherSpec]
        | some ngn =>
            exfalso
            apply hfail ngn
            rw [hres]
  · intro ev hev
    fin_cases hev <;> rfl

/-- C2 witness: the retry scheduled for the failing scene event above fires
the callback on the next default scene event. -/
theorem on_scene_event_schedules_single_retry_witness :
    (onSceneEventCallback envNoEngine "tk-maya" sampleCtx "Shotgun" uiEmpty).2.1
        = some (retryWatcherSpec "tk-maya" sampleCtx "Shotgun")
    ∧ (dispatchEvent (mkWatcher (CbFn.onSceneEvent "tk-maya" sampleCtx "Shotgun")
        defaultSceneEvents true (fun _ => false)).1 MEvent.kAfterOpen).cbCount = 1 := by
  have t := on_scene_event_schedules_single_retry envNoEngine "tk-maya" sampleCtx
      "Shotgun" uiEmpty (fun ngn hcontra => by
        have hr : (refreshEngine envNoEngine "tk-maya" sampleCtx "Shotgun" uiEmpty).1
            = Except.error (PyErr.otherError "exceptions.AttributeError"
                "\x27NoneType\x27 object has no attribute \x27sgtk\x27") := rfl
        rw [hr] at hcontra
        exact Except.noConfusion hcontra)
  exact ⟨t.1, t.2 MEvent.kAfterOpen (by simp [defaultSceneEvents])⟩

/-- C5: the watcher's only mutable data is `__message_ids`, and it tracks
the host registrations exactly: after `start_watching` the registered ids
are precisely the stored handles (every handle returned by a successful
`addCallback` was appended); `stop_watching` calls `removeCallback` on every
stored handle (none survives in the registry) and leaves the list empty; and
the handles-equal-registrations invariant is preserved by `start_watching`,
`stop_watching`, both static callbacks, and holds at construction. -/
theorem watcher_message_ids_invariant
    (h : WHost) (cb : CbFn) (events : List MEvent) (ro : Bool)
    (failing : MEvent → Bool) (hinv : WatcherInv h) :
    ((startWatching h).1.registry.map (fun p => p.1) = (startWatching h).1.messageIds)
    ∧ ((stopWatching h).messageIds = [])
    ∧ (∀ p ∈ (stopWatching h).registry, p.1 ∉ h.messageIds)
    ∧ WatcherInv (startWatching h).1
    ∧ WatcherInv (stopWatching h)
    ∧ WatcherInv (sceneEventCb h)
    ∧ WatcherInv (mayaExitingCb h)
    ∧ WatcherInv (mkWatcher cb events ro failing).1 := by
  have hsub := regSub_of_watcherInv h hinv
  refine ⟨startWatching_watcherInv h hsub, stopWatching_messageIds h, ?_,
    startWatching_watcherInv h hsub, stopWatching_watcherInv h hsub,
    sceneEventCb_watcherInv h hinv, mayaExitingCb_watcherInv h hinv,
    mkWatcher_watcherInv cb events ro failing⟩
  intro p hp
  exact ((stopWatching_registry_mem h p).mp hp).2

/-- C5 witness: the invariant holds and `stop_watching` empties the list on
a concrete freshly-constructed watcher. -/
theorem watcher_message_ids_invariant_witness :
    ((stopWatching watcherFresh).messageIds = [])
    ∧ WatcherInv (stopWatching watcherFresh)
    ∧ WatcherInv (sceneEventCb watcherFresh) := by
  have t := watcher_message_ids_invariant watcherFresh (CbFn.opaqueFn 0)
      defaultSceneEvents false (fun _ => false) rfl
  exact ⟨t.2.1, t.2.2.2.2.1, t.2.2.2.2.2.1⟩

/-- C8: a watcher constructed with `run_once=True` invokes its callback at
most once over any sequence of scene events, and once it has fired, its
registrations and stored handles are all gone (stop_watching ran before the
callback), so no later scene event reaches the callback through it. -/
theorem run_once_watcher_fires_at_most_once
    (cb : CbFn) (events : List MEvent) (failing : MEvent → Bool) (l : List MEvent) :
    ((dispatchEvents (mkWatcher cb events true failing).1 l).cbCount ≤ 1)
    ∧ ((dispatchEvents (mkWatcher cb events true failing).1 l).cbCount = 1 →
        (dispatchEvents (mkWatcher cb events true failing).1 l).registry = []
        ∧ (dispatchEvents (mkWatcher cb events true failing).1 l).messageIds = []) := by
  have h8 := dispatchEvents_runOnce (mkWatcher cb events true failing).1 l
      (mkWatcher_runOnceInv cb events failing)
  exact ⟨h8.2.2.1, h8.2.2.2⟩

/-- C8 witness: over two scene events the run-once watcher fires exactly
once and is fully deregistered. -/
theorem run_once_watcher_fires_at_most_once_witness :
    ((dispatchEvents (mkWatcher (CbFn.opaqueFn 1) defaultSceneEvents true
        (fun _ => false)).1 [MEvent.kAfterOpen, MEvent.kAfterSave]).cbCount ≤ 1)
    ∧ ((dispatchEvents (mkWatcher (CbFn.opaqueFn 1) defaultSceneEvents true
        (fun _ => false)).1 [MEvent.kAfterOpen, MEvent.kAfterSave]).registry = [])
    ∧ ((dispatchEvents (mkWatcher (CbFn.opaqueFn 1) defaultSceneEvents true
        (fun _ => false)).1 [MEvent.kAfterOpen, MEvent.kAfterSave]).messageIds = []) := by
  have t := run_once_watcher_fires_at_most_once (CbFn.opaqueFn 1) defaultSceneEvents
      (fun _ => false) [MEvent.kAfterOpen, MEvent.kAfterSave]
  exact ⟨t.1, (t.2 rfl).1, (t.2 rfl).2⟩

/-- C9: `start_watching` is idempotent with respect to the registration
state: after `n ≥ 1` successive calls the registered callbacks, the number
of stored handles, and the registration each stored handle denotes are the
same as after one call, and (for a duplicate-free event list) no duplicate
registration for the same event ever accumulates. -/
theorem start_watching_idempotent
    (h : WHost) (n : Nat) (hsub : RegSub h) (hn : 1 ≤ n) :
    regState (startIter n h) = regState (startIter 1 h)
    ∧ ((h.sceneEvents ++ [MEvent.kMayaExiting]).Nodup →
        ((startIter n h).registry.map (fun p => p.2.1)).Nodup) := by
  obtain ⟨m, rfl⟩ : ∃ m, n = m + 1 := ⟨n - 1, by omega⟩
  constructor
  · rw [startIter_regState h hsub m, startIter_regState h hsub 0]
  · intro hnd
    obtain ⟨hs, hf, hsc⟩ := startIter_facts h hsub m
    obtain ⟨r1, -, -, -, -, -, -, -⟩ := startWatching_spec (startIter m h) hs
    have hstep : startIter (m + 1) h = (startWatching (startIter m h)).1 := rfl
    rw [hstep, r1, hf, hsc]
    exact startedRegistry_events_nodup h.failing _ h.sceneEvents hnd

/-- C9 witness: two successive `start_watching` calls on a concrete watcher
leave the same registration state as one, with no duplicates. -/
theorem start_watching_idempotent_witness :
    regState (startIter 2 watcherFresh) = regState (startIter 1 watcherFresh)
    ∧ ((startIter 2 watcherFresh).registry.map (fun p => p.2.1)).Nodup := by
  have t := start_watching_idempotent watcherFresh 2
      (regSub_of_watcherInv watcherFresh rfl) (by omega)
  exact ⟨t.1, t.2 (by decide)⟩

/-- C6: the default watched scene events are exactly kAfterOpen, kAfterSave
and kAfterNew, each routed into the single watcher callback; and when
`automatic_context_switch` is enabled, a successfully completed
`init_engine` registers exactly the watcher whose callback re-derives the
context via `on_scene_event_callback`. -/
theorem default_scene_events_and_registration
    (env : InitEnv) (out : String × Option WatcherSpec)
    (hrun : (initEngine env).1 = Except.ok out)
    (hauto : env.settings.automaticContextSwitch = true) :
    defaultSceneEvents = [MEvent.kAfterOpen, MEvent.kAfterSave, MEvent.kAfterNew]
    ∧ out.2 = some { cbFn := CbFn.onSceneEvent env.instanceName env.context out.1,
                     events := defaultSceneEvents, runOnce := false }
    ∧ (∀ ev ∈ defaultSceneEvents,
        (dispatchEvent (mkWatcher (CbFn.onSceneEvent env.instanceName env.context out.1)
            defaultSceneEvents false (fun _ => false)).1 ev).cbCount
          = (mkWatcher (CbFn.onSceneEvent env.instanceName env.context out.1)
              defaultSceneEvents false (fun _ => false)).1.cbCount + 1) := by
  have hout := initEngine_ok_out env out hrun
  refine ⟨rfl, ?_, ?_⟩
  · rw [hout]
    simp [hauto]
  · intro ev hev
    fin_cases hev <;> rfl

/-- C6 witness: `init_engine` on a concrete environment registers the
default-events watcher for `on_scene_event_callback`. -/
theorem default_scene_events_and_registration_witness :
    (("Shotgun", some sampleWatcherSpec) : String × Option WatcherSpec).2
      = some { cbFn := CbFn.onSceneEvent initEnvSample.instanceName initEnvSample.context
                 (("Shotgun", some sampleWatcherSpec) : String × Option WatcherSpec).1,
               events := defaultSceneEvents, runOnce := false } :=
  (default_scene_events_and_registration initEnvSample ("Shotgun", some sampleWatcherSpec)
    rfl rfl).2.1

/-- C7: every logging method of `MayaEngine` displays its message only by
forwarding the chosen display function and the formatted message through
`async_execute_in_main_thread`; no display function is called directly. -/
theorem logging_routes_through_main_thread
    (d : Bool) (t1 t2 : Nat) (m : String) (r : LogRecord) :
    ((logDebug d t1 t2 m).2.all isAsyncDisplayCall = true)
    ∧ ((logDebug d t1 t2 m).2.all (fun e => !isDirectDisplayCall e) = true)
    ∧ (logInfo m = [Effect.asyncMainThread DispFn.info ("Shotgun: " ++ m)])
    ∧ (logWarning m = [Effect.asyncMainThread DispFn.warning ("Shotgun: " ++ m)])
    ∧ (logError m = [Effect.asyncMainThread DispFn.error ("Shotgun: " ++ m)])
    ∧ ((emitLogMessageFUTURE r).all isAsyncDisplayCall = true)
    ∧ ((emitLogMessageFUTURE r).all (fun e => !isDirectDisplayCall e) = true) := by
  refine ⟨?_, ?_, rfl, rfl, rfl, rfl, rfl⟩ <;> cases d <;> rfl

/-- C10: in batch mode no menu is created or deleted anywhere:
`create_sgtk_disabled_menu` returns immediately leaving the UI untouched,
`remove_sgtk_disabled_menu` returns `False` without deleting, `has_ui` is
`False`, and neither `post_app_init` nor `destroy_engine` emits a menu
operation. -/
theorem batch_mode_no_menus
    (menuName : String) (ui : UI) (envP : PAIEnv) (envD : DestroyEnv)
    (hui : ui.batch = true) (hp : envP.batch = true) (hd : envD.batch = true) :
    createSgtkDisabledMenu menuName ui = (ui, [])
    ∧ removeSgtkDisabledMenu ui = (false, ui, [])
    ∧ hasUI true = false
    ∧ (∀ e ∈ postAppInit envP, isMenuEffect e = false)
    ∧ (∀ e ∈ destroyEngine envD, isMenuEffect e = false) := by
  refine ⟨by simp [createSgtkDisabledMenu, hui],
    by simp [removeSgtkDisabledMenu, hui], rfl, ?_, ?_⟩
  · intro e he
    rw [postAppInit] at he
    have hh : hasUI envP.batch = false := by rw [hp]; rfl
    rw [hh] at he
    simp at he
    exact runAppInstanceCommands_no_menu envP e he
  · intro e he
    have hh : hasUI envD.batch = false := by rw [hd]; rfl
    by_cases hauto : envD.automaticContextSwitch <;>
      simp [destroyEngine, hh, hauto] at he
    · rcases he with rfl | rfl <;> rfl
    · subst he; rfl

/-- C10 witness: concrete batch-mode environments produce no menu
operations. -/
theorem batch_mode_no_menus_witness :
    createSgtkDisabledMenu "Shotgun" uiBatch = (uiBatch, [])
    ∧ removeSgtkDisabledMenu uiBatch = (false, uiBatch, [])
    ∧ hasUI true = false
    ∧ (∀ e ∈ postAppInit paiBatch, isMenuEffect e = false)
    ∧ (∀ e ∈ destroyEngine destroyBatch, isMenuEffect e = false) :=
  batch_mode_no_menus "Shotgun" uiBatch paiBatch destroyBatch rfl rfl rfl
